import Mathlib

/-!
# Dashboard controller (`app/ui/static/js/app.js`)

A shallow embedding of the browser-side dashboard controller: the status
reporter, the navigation helper, the chart renderer, the KPI fetcher, the
upload handler and the two pipeline triggers.

Modelling conventions.

* JSON numbers are modelled as integers (`Int`): the number is the double
  nearest to the integer. The program tests numbers for truthiness, passes
  them on, and converts them to text (`numberToString`).
* String conversion follows `ToString`: an object with an own `toString` key
  (never callable after `JSON.parse`) throws, so `setStatus` can throw.
* A value read from a property may be `undefined`; a parsed JSON body never is.
* One handler runs from start to finish against a fixed assignment of
  outcomes to requests (`Net`); interleavings of several handlers are not
  modelled.
* `new Chart(..)` and `chart.destroy()` belong to the charting library: the
  constructor allocates a fresh handle, `destroy` releases it, neither throws.
* Every externally visible effect is appended to `State.log`.
-/

namespace App

/-! ## Values -/

/-- A parsed JSON value. -/
inductive Json where
  | null
  | bool (b : Bool)
  | num (n : Int)
  | str (s : String)
  | arr (xs : List Json)
  | obj (fields : List (String × Json))

/-- A JavaScript value as the program sees it: `undefined` or a JSON value. -/
inductive JsVal where
  | undefined
  | val (j : Json)

/-- Exceptions and promise rejections. -/
inductive JsError where
  | typeError
  | fetchRejected
  | notJson
  deriving DecidableEq, Repr

/-- JavaScript truthiness. -/
def truthy : JsVal → Bool
  | .undefined => false
  | .val .null => false
  | .val (.bool b) => b
  | .val (.num n) => n != 0
  | .val (.str s) => s != ""
  | .val (.arr _) => true
  | .val (.obj _) => true

/-- The operator `a || b` on already evaluated operands. -/
def jsOr (a b : JsVal) : JsVal :=
  if truthy a then a else b

/-- The number of binary digits of a positive integer. -/
def bitLength (a : Nat) : Nat :=
  (Nat.toDigits 2 a).length

/-- The double nearest to a positive integer, ties to even, as an integer;
`none` when the nearest double is `Infinity`. -/
def nearestDouble (a : Nat) : Option Nat :=
  let bits := bitLength a
  if bits ≤ 53 then some a
  else
    let shift := bits - 53
    let q := a / 2 ^ shift
    let r := a % 2 ^ shift
    let half := 2 ^ (shift - 1)
    let q1 := if r > half ∨ (r = half ∧ q % 2 = 1) then q + 1 else q
    let x := q1 * 2 ^ shift
    if bitLength x > 1024 then none else some x

/-- Whether the decimal `v` converts back to the double `x`, given twice the
midpoints to the neighbouring doubles and whether the significand of `x` is even. -/
def roundsTo (lo2 hi2 : Nat) (even : Bool) (v : Nat) : Bool :=
  if even then decide (lo2 ≤ 2 * v) && decide (2 * v ≤ hi2)
  else decide (lo2 < 2 * v) && decide (2 * v < hi2)

/-- The shortest decimal `s * 10 ^ p` that converts back to the double `x`,
the closest to `x` among the shortest, searching `p` downwards. -/
def shortestDecimal (x lo2 hi2 : Nat) (even : Bool) : Nat → Nat × Nat
  | 0 => (x, 0)
  | p + 1 =>
    let t := 10 ^ (p + 1)
    let c1 := x / t
    let c2 := c1 + 1
    let ok1 := decide (1 ≤ c1) && roundsTo lo2 hi2 even (c1 * t)
    let ok2 := roundsTo lo2 hi2 even (c2 * t)
    if ok1 && ok2 then
      let d1 := x - c1 * t
      let d2 := c2 * t - x
      if d1 < d2 then (c1, p + 1)
      else if d2 < d1 then (c2, p + 1)
      else if c1 % 2 = 0 then (c1, p + 1) else (c2, p + 1)
    else if ok1 then (c1, p + 1)
    else if ok2 then (c2, p + 1)
    else shortestDecimal x lo2 hi2 even p

/-- The text of a positive double that is an integer: plain digits below
`1e21`, exponent form from there on. -/
def doubleToString (x : Nat) : String :=
  if x < 2 ^ 53 then toString x
  else
    let e := bitLength x - 53
    let ulp := 2 ^ e
    let gapLow := if x = 2 ^ (bitLength x - 1) then 2 ^ (e - 1) else ulp
    let even := (x / ulp) % 2 == 0
    let sp := shortestDecimal x (2 * x - gapLow) (2 * x + ulp) even (toString x).length
    let digits := toString sp.1
    let k := digits.length
    let n := k + sp.2
    if n ≤ 21 then digits ++ String.mk (List.replicate sp.2 '0')
    else if k = 1 then digits ++ "e+" ++ toString (n - 1)
    else (digits.take 1) ++ "." ++ (digits.drop 1) ++ "e+" ++ toString (n - 1)

/-- The text of a number (`Number::toString`, radix 10) for the double
nearest to an integer. -/
def numberToString (n : Int) : String :=
  if n = 0 then "0"
  else
    let body :=
      match nearestDouble n.natAbs with
      | none => "Infinity"
      | some x => doubleToString x
    if n < 0 then "-" ++ body else body

mutual
/-- String conversion of a JSON value (`ToString`). An array is joined; a
plain object gives `[object Object]` unless it has an own `toString` key,
which is not callable, and then the conversion throws. -/
def Json.toStr : Json → Except JsError String
  | .null => .ok "null"
  | .bool b => .ok (if b then "true" else "false")
  | .num n => .ok (numberToString n)
  | .str s => .ok s
  | .arr xs => Json.joinStr xs
  | .obj fields =>
    if (fields.lookup "toString").isSome then .error .typeError else .ok "[object Object]"
/-- The text of `Array.prototype.join(",")`, stopping at the first throw. -/
def Json.joinStr : List Json → Except JsError String
  | [] => .ok ""
  | [x] => Json.elemStr x
  | x :: y :: rest =>
    match Json.elemStr x with
    | .error e => .error e
    | .ok a =>
      match Json.joinStr (y :: rest) with
      | .error e => .error e
      | .ok b => .ok (a ++ "," ++ b)
/-- The text one array element contributes to `join`: empty for `null`,
its string conversion otherwise. -/
def Json.elemStr : Json → Except JsError String
  | .null => .ok ""
  | .bool b => .ok (if b then "true" else "false")
  | .num n => .ok (numberToString n)
  | .str s => .ok s
  | .arr xs => Json.joinStr xs
  | .obj fields =>
    if (fields.lookup "toString").isSome then .error .typeError else .ok "[object Object]"
end

/-- String conversion of a JavaScript value. -/
def JsVal.toStr : JsVal → Except JsError String
  | .undefined => .ok "undefined"
  | .val j => j.toStr

/-- Property read `r.k` for the field names the program uses (none of them is
a built-in property): reading from `null` throws, an object yields the field
or `undefined`, every other value yields `undefined`. -/
def getProp (r : Json) (k : String) : Except JsError JsVal :=
  match r with
  | .null => .error .typeError
  | .obj fields =>
    match fields.lookup k with
    | some v => .ok (.val v)
    | none => .ok .undefined
  | _ => .ok .undefined

/-- Apply a callback to every element in order, stopping at the first throw. -/
def mapE (f : Json → Except JsError JsVal) : List Json → Except JsError (List JsVal)
  | [] => .ok []
  | x :: xs =>
    match f x with
    | .error e => .error e
    | .ok v =>
      match mapE f xs with
      | .error e => .error e
      | .ok vs => .ok (v :: vs)

/-- The call `d.map(f)`: only an array has a `map` method. -/
def jsMap (d : Json) (f : Json → Except JsError JsVal) : Except JsError (List JsVal) :=
  match d with
  | .arr xs => mapE f xs
  | _ => .error .typeError

/-! ## Page state -/

/-- A file chosen in a file input. -/
structure File where
  name : String
  content : String
  deriving DecidableEq, Repr

/-- The parts of a DOM element the program reads or writes. `value` and
`files` are `none` when the element has no such property. -/
structure Element where
  textContent : String
  className : String
  value : Option String
  files : Option (List File)
  deriving DecidableEq, Repr

/-- A multipart form body: the appended fields in order. -/
abbrev FormData := List (String × File)

/-- A request handed to `fetch`. -/
structure Request where
  method : String
  url : String
  body : Option FormData
  deriving DecidableEq, Repr

/-- How a request ends: the fetch is rejected, the body is not JSON, or the
body parses to a JSON value. -/
inductive Outcome where
  | rejected
  | notJson
  | json (v : Json)

/-- The outcome of every request a handler may issue. -/
abbrev Net := Request → Outcome

/-- The second argument of `new Chart(canvas, config)`. -/
structure ChartConfig where
  type : String
  labels : List JsVal
  datasetLabel : Option String
  data : List JsVal
  tension : Option String
  responsive : Bool
  maintainAspectRatio : Bool
  indexAxis : Option String

/-- A chart instance: its identity, the id of its mount point and its configuration. -/
structure Chart where
  id : Nat
  canvas : String
  config : ChartConfig

/-- The module-level object `charts`; `none` is `null`. -/
structure Charts where
  repeat_ : Option Chart
  monthly : Option Chart
  regional : Option Chart
  top : Option Chart

/-- The keys of `charts`, in insertion order. -/
inductive Key where
  | repeat_
  | monthly
  | regional
  | top
  deriving DecidableEq, Repr

/-- The read `charts[k]`. -/
def Charts.get (c : Charts) : Key → Option Chart
  | .repeat_ => c.repeat_
  | .monthly => c.monthly
  | .regional => c.regional
  | .top => c.top

/-- The write `charts[k] = v`. -/
def Charts.set (c : Charts) (k : Key) (v : Option Chart) : Charts :=
  match k with
  | .repeat_ => { c with repeat_ := v }
  | .monthly => { c with monthly := v }
  | .regional => { c with regional := v }
  | .top => { c with top := v }

/-- Externally visible effects, in the order they happen. -/
inductive Event where
  | fetch (r : Request)
  | status (id : String) (text : String) (cls : String)
  | scroll (id : String)
  | destroy (h : Nat)
  | create (h : Nat) (canvas : String)
  | consoleError
  deriving DecidableEq, Repr

/-- The page: the document, the chart handles, the charting library's live
instances and its next fresh identity, and the effects so far. -/
structure State where
  dom : String → Option Element
  charts : Charts
  live : List Nat
  nextId : Nat
  log : List Event

/-- The lookup `document.getElementById(id)`; `none` is `null`. -/
def getElementById (s : State) (id : String) : Option Element :=
  s.dom id

/-- Replace the element with the given id. -/
def putElement (s : State) (id : String) (el : Element) : State :=
  { s with dom := fun i => if i = id then some el else s.dom i }

/-- Append one effect to the log. -/
def emit (e : Event) (s : State) : State :=
  { s with log := s.log ++ [e] }

/-! ## Helpers (lines 1-27) -/

/-- Source `scrollToEl(id)`: scrolls when the element exists, otherwise does nothing. -/
def scrollToEl (id : String) (s : State) : State :=
  match getElementById s id with
  | some _ => emit (.scroll id) s
  | none => s

/-- The class string `setStatus` builds from its flag. -/
def statusClass (ok : Bool) : String :=
  "text-center text-sm mt-3 " ++ (if ok then "text-emerald-600" else "text-rose-600")

/-- Source `setStatus(id, msg, ok)`: when the element exists its text becomes
`msg || ""` converted to a string and its class the success or failure style;
a throwing conversion leaves the page as it was. -/
def setStatus (id : String) (msg : JsVal) (ok : Bool) (s : State) : Except JsError Unit × State :=
  match getElementById s id with
  | none => (.ok (), s)
  | some el =>
    match (jsOr msg (.val (.str ""))).toStr with
    | .error e => (.error e, s)
    | .ok text =>
      let cls := statusClass ok
      (.ok (), emit (.status id text cls)
        (putElement s id { el with textContent := text, className := cls }))

/-- Source `baseKpi()`: reading `.value` of a missing mode selector throws. -/
def baseKpi (s : State) : Except JsError String :=
  match getElementById s "sourceMode" with
  | none => .error .typeError
  | some el => .ok (if el.value = some "db" then "/kpi/db" else "/kpi/memory")

/-! ## Chart renderer (lines 30-94) -/

/-- The call `charts[k].destroy()` of the library: the instance stops being live. -/
def destroyChart (c : Chart) (s : State) : State :=
  emit (.destroy c.id) { s with live := s.live.filter (fun h => h != c.id) }

/-- One step of the `forEach` over the keys: destroy and clear a non-empty slot. -/
def destroyKey (s : State) (k : Key) : State :=
  match s.charts.get k with
  | none => s
  | some c =>
    let s1 := destroyChart c s
    { s1 with charts := s1.charts.set k none }

/-- The loop `Object.keys(charts).forEach(..)`. -/
def destroyOld (s : State) : State :=
  [Key.repeat_, Key.monthly, Key.regional, Key.top].foldl destroyKey s

/-- The constructor `new Chart(document.getElementById(canvas), config)`. -/
def newChart (canvas : String) (config : ChartConfig) (s : State) : Chart × State :=
  let c : Chart := { id := s.nextId, canvas := canvas, config := config }
  (c, emit (.create c.id canvas) { s with nextId := s.nextId + 1, live := s.live ++ [c.id] })

/-- The callback `x => x.a || x.b || 0`. -/
def orOrZero (a b : String) (x : Json) : Except JsError JsVal :=
  match getProp x a with
  | .error e => .error e
  | .ok va =>
    if truthy va then .ok va
    else
      match getProp x b with
      | .error e => .error e
      | .ok vb => .ok (jsOr vb (.val (.num 0)))

/-- The callback `r => r.a || lit`. -/
def orLit (a : String) (lit : Json) (x : Json) : Except JsError JsVal :=
  match getProp x a with
  | .error e => .error e
  | .ok va => .ok (jsOr va (.val lit))

/-- The configuration of the repeat-customers bar chart (lines 41-50). -/
def repeatConfig (repeat_ : Json) : Except JsError ChartConfig :=
  match jsMap repeat_ (fun r => getProp r "customer_id") with
  | .error e => .error e
  | .ok labels =>
    match jsMap repeat_ (fun r => getProp r "order_count") with
    | .error e => .error e
    | .ok data =>
      .ok { type := "bar", labels := labels, datasetLabel := some "Orders", data := data,
            tension := none, responsive := true, maintainAspectRatio := false,
            indexAxis := none }

/-- The configuration of the monthly line chart (lines 54-64). -/
def monthlyConfig (monthly : Json) : Except JsError ChartConfig :=
  match jsMap monthly (fun m => getProp m "month") with
  | .error e => .error e
  | .ok labels =>
    match jsMap monthly (orOrZero "orders_count" "orders") with
    | .error e => .error e
    | .ok data =>
      .ok { type := "line", labels := labels, datasetLabel := some "Orders", data := data,
            tension := some "0.3", responsive := true, maintainAspectRatio := false,
            indexAxis := none }

/-- The configuration of the regional doughnut chart (lines 68-76). -/
def regionalConfig (regional : Json) : Except JsError ChartConfig :=
  match jsMap regional (orLit "region" (.str "Unknown")) with
  | .error e => .error e
  | .ok labels =>
    match jsMap regional (orLit "revenue" (.num 0)) with
    | .error e => .error e
    | .ok data =>
      .ok { type := "doughnut", labels := labels, datasetLabel := none, data := data,
            tension := none, responsive := true, maintainAspectRatio := false,
            indexAxis := none }

/-- The configuration of the top-customers horizontal bar chart (lines 80-93). -/
def topConfig (top : Json) : Except JsError ChartConfig :=
  match jsMap top (fun t => getProp t "customer_id") with
  | .error e => .error e
  | .ok labels =>
    match jsMap top (orOrZero "total_spend" "total_amount") with
    | .error e => .error e
    | .ok data =>
      .ok { type := "bar", labels := labels, datasetLabel := some "Total Spend", data := data,
            tension := none, responsive := true, maintainAspectRatio := false,
            indexAxis := some "y" }

/-- The assignment `charts[k] = new Chart(getElementById(canvas), config)`. -/
def createInto (k : Key) (canvas : String) (config : ChartConfig) (s : State) : State :=
  let r := newChart canvas config s
  { r.2 with charts := r.2.charts.set k (some r.1) }

/-- Source `renderCharts({ repeat, monthly, regional, top })`: the result is
`ok` when the function returns and `error` when it throws; the state is the
page at that point. -/
def renderCharts (repeat_ monthly regional top : Json) (s : State) : Except JsError Unit × State :=
  let s0 := destroyOld s
  match repeatConfig repeat_ with
  | .error e => (.error e, s0)
  | .ok c1 =>
    let s1 := createInto .repeat_ "chartRepeat" c1 s0
    match monthlyConfig monthly with
    | .error e => (.error e, s1)
    | .ok c2 =>
      let s2 := createInto .monthly "chartMonthly" c2 s1
      match regionalConfig regional with
      | .error e => (.error e, s2)
      | .ok c3 =>
        let s3 := createInto .regional "chartRegional" c3 s2
        match topConfig top with
        | .error e => (.error e, s3)
        | .ok c4 => (.ok (), createInto .top "chartTop" c4 s3)

/-! ## Network -/

/-- A string literal as a JavaScript value. -/
def lit (s : String) : JsVal :=
  .val (.str s)

/-- The request of `fetch(url)`. -/
def getReq (url : String) : Request :=
  { method := "GET", url := url, body := none }

/-- The request of `fetch(url, { method: "POST", body })`. -/
def postReq (url : String) (body : Option FormData) : Request :=
  { method := "POST", url := url, body := body }

/-- The settled value of `fetch(req).then(r => r.json())`. -/
def respond (net : Net) (req : Request) : Except JsError Json :=
  match net req with
  | .rejected => .error .fetchRejected
  | .notJson => .error .notJson
  | .json v => .ok v

/-! ## KPI fetcher (lines 97-113) -/

/-- The `catch` block of `refreshKpis`. -/
def refreshFailed (s : State) : Except JsError Unit × State :=
  setStatus "statusKpi" (lit "Failed to load KPIs.") false (emit .consoleError s)

/-- Source `refreshKpis()`: `error` means the returned promise rejects. The
four requests are issued in order before any of them is awaited. -/
def refreshKpis (net : Net) (s : State) : Except JsError Unit × State :=
  match baseKpi s with
  | .error e => (.error e, s)
  | .ok base =>
    let r1 := getReq (base ++ "/repeat-customers")
    let r2 := getReq (base ++ "/monthly-order-trends")
    let r3 := getReq (base ++ "/regional-revenue")
    let r4 := getReq (base ++ "/top-customers?limit=10")
    let s4 := emit (.fetch r4) (emit (.fetch r3) (emit (.fetch r2) (emit (.fetch r1) s)))
    match respond net r1, respond net r2, respond net r3, respond net r4 with
    | .ok repeat_, .ok monthly, .ok regional, .ok top =>
      match renderCharts repeat_ monthly regional top s4 with
      | (.error _, s5) => refreshFailed s5
      | (.ok _, s5) =>
        match setStatus "statusKpi" (lit "KPI dashboard refreshed.") true s5 with
        | (.error _, s6) => refreshFailed s6
        | (.ok _, s6) => (.ok (), s6)
    | _, _, _, _ => refreshFailed s4

/-! ## Upload handler (lines 116-145) -/

/-- The read `document.getElementById(id).files[0]`; `none` is `undefined`. -/
def firstFile (s : State) (id : String) : Except JsError (Option File) :=
  match getElementById s id with
  | none => .error .typeError
  | some el =>
    match el.files with
    | none => .error .typeError
    | some fs => .ok fs.head?

/-- One guarded upload: `if (f) { fd.append("file", f); await fetch(url, ..).then(r => r.json()) }`. -/
def uploadOne (net : Net) (url : String) (f : Option File) (s : State) : Except JsError Unit × State :=
  match f with
  | none => (.ok (), s)
  | some file =>
    let req := postReq url (some [("file", file)])
    match respond net req with
    | .error e => (.error e, emit (.fetch req) s)
    | .ok _ => (.ok (), emit (.fetch req) s)

/-- The `catch` block of `uploadFiles`. -/
def uploadFailed (s : State) : Except JsError Unit × State :=
  setStatus "statusUpload" (lit "Upload failed.") false (emit .consoleError s)

/-- Source `uploadFiles()`. The reads of the file inputs, the validation
status and the in-progress status come before the `try`. -/
def uploadFiles (net : Net) (s : State) : Except JsError Unit × State :=
  match firstFile s "customersFile" with
  | .error e => (.error e, s)
  | .ok cust =>
    match firstFile s "ordersFile" with
    | .error e => (.error e, s)
    | .ok orders =>
      if cust.isNone && orders.isNone then
        setStatus "statusUpload" (lit "Please choose at least one file to upload.") false s
      else
        match setStatus "statusUpload" (lit "Uploading...") true s with
        | (.error e, s1) => (.error e, s1)
        | (.ok _, s1) =>
          match uploadOne net "/upload/customers" cust s1 with
          | (.error _, s2) => uploadFailed s2
          | (.ok _, s2) =>
            match uploadOne net "/upload/orders" orders s2 with
            | (.error _, s3) => uploadFailed s3
            | (.ok _, s3) =>
              match setStatus "statusUpload" (lit "Upload successful.") true s3 with
              | (.error _, s4) => uploadFailed s4
              | (.ok _, s4) => (.ok (), scrollToEl "section-clean" s4)

/-! ## Pipeline triggers (lines 148-173) -/

/-- The `catch` block of `runClean`. -/
def cleanFailed (s : State) : Except JsError Unit × State :=
  setStatus "statusClean" (lit "Cleaning failed.") false (emit .consoleError s)

/-- Source `runClean()`. The in-progress status comes before the `try`. -/
def runClean (net : Net) (s : State) : Except JsError Unit × State :=
  match setStatus "statusClean" (lit "Cleaning in progress...") true s with
  | (.error e, s1) => (.error e, s1)
  | (.ok _, s1) =>
    let req := postReq "/clean" none
    let s2 := emit (.fetch req) s1
    match respond net req with
    | .error _ => cleanFailed s2
    | .ok res =>
      match getProp res "message" with
      | .error _ => cleanFailed s2
      | .ok m =>
        match setStatus "statusClean" (jsOr m (lit "Cleaning completed.")) true s2 with
        | (.error _, s3) => cleanFailed s3
        | (.ok _, s3) =>
          let s4 := scrollToEl "section-load" s3
          match refreshKpis net s4 with
          | (.error _, s5) => cleanFailed s5
          | (.ok _, s5) => (.ok (), s5)

/-- The `catch` block of `runLoad`. -/
def loadFailed (s : State) : Except JsError Unit × State :=
  setStatus "statusLoad" (lit "DB load failed.") false (emit .consoleError s)

/-- Source `runLoad()`. The in-progress status comes before the `try`. -/
def runLoad (net : Net) (s : State) : Except JsError Unit × State :=
  match setStatus "statusLoad" (lit "Loading into DB...") true s with
  | (.error e, s1) => (.error e, s1)
  | (.ok _, s1) =>
    let req := postReq "/db/load" none
    let s2 := emit (.fetch req) s1
    match respond net req with
    | .error _ => loadFailed s2
    | .ok res =>
      match getProp res "message" with
      | .error _ => loadFailed s2
      | .ok m =>
        match setStatus "statusLoad" (jsOr m (lit "DB load completed.")) true s2 with
        | (.error _, s3) => loadFailed s3
        | (.ok _, s3) =>
          let s4 := scrollToEl "section-kpi" s3
          match refreshKpis net s4 with
          | (.error _, s5) => loadFailed s5
          | (.ok _, s5) => (.ok (), s5)

/-! ## Observations -/

/-- The requests among a list of effects, in order. -/
def requestsOf : List Event → List Request
  | [] => []
  | .fetch r :: es => r :: requestsOf es
  | _ :: es => requestsOf es

/-- The text a status region shows, if the region exists. -/
def textOf (s : State) (id : String) : Option String :=
  (s.dom id).map (fun el => el.textContent)

/-- The class of a status region, if the region exists. -/
def classOf (s : State) (id : String) : Option String :=
  (s.dom id).map (fun el => el.className)

/-- The page before the script has rendered anything, over a given document. -/
def initState (dom : String → Option Element) : State :=
  { dom := dom, charts := { repeat_ := none, monthly := none, regional := none, top := none },
    live := [], nextId := 0, log := [] }

/-- An element with no text, class, value or files. -/
def blank : Element :=
  { textContent := "", className := "", value := none, files := none }

/-- A document holding every element the script addresses: the status
regions, the sections, the mode selector with the given value and the two
file inputs with the given selections. -/
def pageDom (mode : String) (cust orders : List File) : String → Option Element :=
  fun id =>
    if id = "sourceMode" then some { blank with value := some mode }
    else if id = "customersFile" then some { blank with files := some cust }
    else if id = "ordersFile" then some { blank with files := some orders }
    else if id = "statusKpi" ∨ id = "statusUpload" ∨ id = "statusClean" ∨ id = "statusLoad"
      ∨ id = "section-clean" ∨ id = "section-load" ∨ id = "section-kpi" then some blank
    else none

/-! ## Records and specification vocabulary -/

/-- A record: the fields of a JSON object. -/
abbrev Record := List (String × Json)

/-- A dataset that is a sequence of records. -/
def recs (rows : List Record) : Json :=
  .arr (rows.map Json.obj)

/-- The value of `r.k` for a record `r`: the field, or `undefined`. -/
def field (r : Record) (k : String) : JsVal :=
  match r.lookup k with
  | some v => .val v
  | none => .undefined

/-- The ids of the chart instances held in the four slots, in key order. -/
def heldIds (c : Charts) : List Nat :=
  [c.repeat_, c.monthly, c.regional, c.top].filterMap (fun o => o.map Chart.id)

/-- The chart-handle state the renderer maintains: the slots hold distinct
instances, the live instances are exactly the held ones, and identities not
yet handed out are not live. -/
structure Owned (s : State) : Prop where
  distinct : (heldIds s.charts).Nodup
  held_live : ∀ h, h ∈ s.live ↔ h ∈ heldIds s.charts
  fresh : ∀ h ∈ s.live, h < s.nextId

/-- The callback `x => x.a || x.b || 0` on a record. -/
def orOrZeroRec (a b : String) (r : Record) : JsVal :=
  if truthy (field r a) then field r a
  else if truthy (field r b) then field r b
  else .val (.num 0)

/-- The callback `r => r.a || lit` on a record. -/
def orLitRec (a : String) (l : Json) (r : Record) : JsVal :=
  if truthy (field r a) then field r a else .val l

/-- The four KPI requests for an endpoint prefix, in the order they are issued. -/
def kpiRequests (base : String) : List Request :=
  [getReq (base ++ "/repeat-customers"), getReq (base ++ "/monthly-order-trends"),
   getReq (base ++ "/regional-revenue"), getReq (base ++ "/top-customers?limit=10")]

/-- The two pipeline triggers. -/
inductive Trigger where
  | clean
  | load
  deriving DecidableEq, Repr

/-- The handler of a trigger. -/
def Trigger.run : Trigger → Net → State → Except JsError Unit × State
  | .clean => runClean
  | .load => runLoad

/-- The endpoint a trigger posts to. -/
def Trigger.url : Trigger → String
  | .clean => "/clean"
  | .load => "/db/load"

/-- The status region of a trigger. -/
def Trigger.statusId : Trigger → String
  | .clean => "statusClean"
  | .load => "statusLoad"

/-- The in-progress text of a trigger. -/
def Trigger.progress : Trigger → String
  | .clean => "Cleaning in progress..."
  | .load => "Loading into DB..."

/-- The fallback success text of a trigger. -/
def Trigger.fallback : Trigger → String
  | .clean => "Cleaning completed."
  | .load => "DB load completed."

/-- The failure text of a trigger. -/
def Trigger.failText : Trigger → String
  | .clean => "Cleaning failed."
  | .load => "DB load failed."

/-- The section a trigger scrolls to on success. -/
def Trigger.target : Trigger → String
  | .clean => "section-load"
  | .load => "section-kpi"

/-- The chained refresh fails: one of the four requests is rejected or has a
body that is not JSON, or all four bodies parse and `renderCharts` throws on them. -/
def RefreshFails (net : Net) (base : String) : Prop :=
  (∃ r ∈ kpiRequests base, net r = .rejected ∨ net r = .notJson) ∨
  (∃ a b c d st, net (getReq (base ++ "/repeat-customers")) = .json a ∧
    net (getReq (base ++ "/monthly-order-trends")) = .json b ∧
    net (getReq (base ++ "/regional-revenue")) = .json c ∧
    net (getReq (base ++ "/top-customers?limit=10")) = .json d ∧
    (renderCharts a b c d st).1 ≠ .ok ())

/-- The page after `setStatus` has written the text `text`: unchanged when
the element does not exist. -/
def writeStatus (id text : String) (ok : Bool) (s : State) : State :=
  match getElementById s id with
  | none => s
  | some el =>
    emit (.status id text (statusClass ok))
      (putElement s id { el with textContent := text, className := statusClass ok })

/-- The page on which the chained refresh of a trigger starts, when the
success status was written with the text `text`. -/
def Trigger.beforeRefresh (t : Trigger) (text : String) (s : State) : State :=
  scrollToEl t.target
    (writeStatus t.statusId text true
      (emit (.fetch (postReq t.url none)) (writeStatus t.statusId t.progress true s)))

/-- The y-value as the specification words it: the first field when it is present,
otherwise the second field when it is present, otherwise 0. -/
def presentOrZero (a b : String) (r : Record) : JsVal :=
  match r.lookup a with
  | some v => .val v
  | none =>
    match r.lookup b with
    | some v => .val v
    | none => .val (.num 0)

/-- The label or value as the specification words it: the field when it is present,
otherwise the literal. -/
def presentOr (a : String) (l : Json) (r : Record) : JsVal :=
  match r.lookup a with
  | some v => .val v
  | none => .val l

/-! ## Concrete pages and networks -/

/-- A network answering every POST with one outcome and every GET with another. -/
def stubNet (post kpi : Outcome) : Net :=
  fun r => if r.method = "POST" then post else kpi

/-- The full document with the mode selector removed. -/
def domWithoutSelector : String → Option Element :=
  fun id => if id = "sourceMode" then none else pageDom "memory" [] [] id

/-- The page after one successful render of four empty datasets. -/
def renderedPage : State :=
  (renderCharts (recs []) (recs []) (recs []) (recs []) (initState (pageDom "memory" [] []))).2

/-- A monthly record whose `orders_count` is present and zero. -/
def zeroCountRow : Record :=
  [("month", .str "2024-01"), ("orders_count", .num 0), ("orders", .num 5)]

/-- A regional record whose `region` is present and empty. -/
def emptyRegionRow : Record :=
  [("region", .str ""), ("revenue", .num 7)]

/-- An orders file. -/
def ordersCsv : File :=
  { name := "orders.csv", content := "order_id,total" }

/-! ## Facts about the embedding -/

theorem getProp_obj (r : Record) (k : String) : getProp (.obj r) k = .ok (field r k) := by
  simp only [getProp, field]
  cases r.lookup k <;> rfl

theorem mapE_records (f : Json → Except JsError JsVal) (g : Record → JsVal)
    (h : ∀ r, f (.obj r) = .ok (g r)) (rows : List Record) :
    mapE f (rows.map Json.obj) = .ok (rows.map g) := by
  induction rows with
  | nil => rfl
  | cons r rows ih => simp [mapE, h, ih]

theorem jsMap_recs (f : Json → Except JsError JsVal) (g : Record → JsVal)
    (h : ∀ r, f (.obj r) = .ok (g r)) (rows : List Record) :
    jsMap (recs rows) f = .ok (rows.map g) := by
  simp [jsMap, recs, mapE_records f g h]

theorem jsMap_getProp_recs (k : String) (rows : List Record) :
    jsMap (recs rows) (fun r => getProp r k) = .ok (rows.map (fun r => field r k)) :=
  jsMap_recs (fun r => getProp r k) (fun r => field r k) (fun r => getProp_obj r k) rows

theorem orOrZero_obj (a b : String) (r : Record) :
    orOrZero a b (.obj r) = .ok (orOrZeroRec a b r) := by
  simp only [orOrZero, getProp_obj, orOrZeroRec, jsOr]
  split <;> rfl

theorem orLit_obj (a : String) (l : Json) (r : Record) :
    orLit a l (.obj r) = .ok (orLitRec a l r) := by
  simp only [orLit, getProp_obj, orLitRec, jsOr]

theorem repeatConfig_recs (rows : List Record) :
    repeatConfig (recs rows) = .ok
      { type := "bar", labels := rows.map (fun r => field r "customer_id"),
        datasetLabel := some "Orders", data := rows.map (fun r => field r "order_count"),
        tension := none, responsive := true, maintainAspectRatio := false, indexAxis := none } := by
  simp only [repeatConfig, jsMap_getProp_recs]

theorem monthlyConfig_recs (rows : List Record) :
    monthlyConfig (recs rows) = .ok
      { type := "line", labels := rows.map (fun r => field r "month"),
        datasetLabel := some "Orders", data := rows.map (orOrZeroRec "orders_count" "orders"),
        tension := some "0.3", responsive := true, maintainAspectRatio := false,
        indexAxis := none } := by
  simp only [monthlyConfig, jsMap_getProp_recs,
    jsMap_recs _ _ (orOrZero_obj _ _)]

theorem regionalConfig_recs (rows : List Record) :
    regionalConfig (recs rows) = .ok
      { type := "doughnut", labels := rows.map (orLitRec "region" (.str "Unknown")),
        datasetLabel := none, data := rows.map (orLitRec "revenue" (.num 0)),
        tension := none, responsive := true, maintainAspectRatio := false,
        indexAxis := none } := by
  simp only [regionalConfig, jsMap_recs _ _ (orLit_obj _ _)]

theorem topConfig_recs (rows : List Record) :
    topConfig (recs rows) = .ok
      { type := "bar", labels := rows.map (fun r => field r "customer_id"),
        datasetLabel := some "Total Spend",
        data := rows.map (orOrZeroRec "total_spend" "total_amount"),
        tension := none, responsive := true, maintainAspectRatio := false,
        indexAxis := some "y" } := by
  simp only [topConfig, jsMap_getProp_recs,
    jsMap_recs _ _ (orOrZero_obj _ _)]

theorem destroyOld_charts (s : State) :
    (destroyOld s).charts = { repeat_ := none, monthly := none, regional := none, top := none } := by
  obtain ⟨dom, ⟨a, b, c, d⟩, live, n, log⟩ := s
  cases a <;> cases b <;> cases c <;> cases d <;>
    simp [destroyOld, destroyKey, destroyChart, emit, Charts.get, Charts.set]

theorem destroyOld_dom (s : State) : (destroyOld s).dom = s.dom := by
  obtain ⟨dom, ⟨a, b, c, d⟩, live, n, log⟩ := s
  cases a <;> cases b <;> cases c <;> cases d <;>
    simp [destroyOld, destroyKey, destroyChart, emit, Charts.get, Charts.set]

theorem destroyOld_nextId (s : State) : (destroyOld s).nextId = s.nextId := by
  obtain ⟨dom, ⟨a, b, c, d⟩, live, n, log⟩ := s
  cases a <;> cases b <;> cases c <;> cases d <;>
    simp [destroyOld, destroyKey, destroyChart, emit, Charts.get, Charts.set]

theorem destroyOld_log (s : State) :
    (destroyOld s).log = s.log ++ (heldIds s.charts).map Event.destroy := by
  obtain ⟨dom, ⟨a, b, c, d⟩, live, n, log⟩ := s
  cases a <;> cases b <;> cases c <;> cases d <;>
    simp [destroyOld, destroyKey, destroyChart, emit, Charts.get, Charts.set, heldIds]

theorem mem_destroyOld_live (s : State) (h : Nat) :
    h ∈ (destroyOld s).live ↔ h ∈ s.live ∧ h ∉ heldIds s.charts := by
  obtain ⟨dom, ⟨a, b, c, d⟩, live, n, log⟩ := s
  cases a <;> cases b <;> cases c <;> cases d <;>
    simp [destroyOld, destroyKey, destroyChart, emit, Charts.get, Charts.set, heldIds,
      List.mem_filter] <;> tauto

theorem renderCharts_recs (s : State) (rp mo rg tp : List Record) :
    renderCharts (recs rp) (recs mo) (recs rg) (recs tp) s =
      (.ok (),
        createInto .top "chartTop"
          { type := "bar", labels := tp.map (fun r => field r "customer_id"),
            datasetLabel := some "Total Spend",
            data := tp.map (orOrZeroRec "total_spend" "total_amount"),
            tension := none, responsive := true, maintainAspectRatio := false,
            indexAxis := some "y" }
          (createInto .regional "chartRegional"
            { type := "doughnut", labels := rg.map (orLitRec "region" (.str "Unknown")),
              datasetLabel := none, data := rg.map (orLitRec "revenue" (.num 0)),
              tension := none, responsive := true, maintainAspectRatio := false,
              indexAxis := none }
            (createInto .monthly "chartMonthly"
              { type := "line", labels := mo.map (fun r => field r "month"),
                datasetLabel := some "Orders",
                data := mo.map (orOrZeroRec "orders_count" "orders"),
                tension := some "0.3", responsive := true, maintainAspectRatio := false,
                indexAxis := none }
              (createInto .repeat_ "chartRepeat"
                { type := "bar", labels := rp.map (fun r => field r "customer_id"),
                  datasetLabel := some "Orders",
                  data := rp.map (fun r => field r "order_count"),
                  tension := none, responsive := true, maintainAspectRatio := false,
                  indexAxis := none }
                (destroyOld s))))) := by
  simp only [renderCharts, repeatConfig_recs, monthlyConfig_recs, regionalConfig_recs,
    topConfig_recs]

theorem count_destroy_map (ids : List Nat) (h : Nat) :
    (ids.map Event.destroy).count (.destroy h) = ids.count h := by
  induction ids with
  | nil => rfl
  | cons x xs ih =>
    by_cases hx : x = h
    · subst hx; simp [ih]
    · have : Event.destroy x ≠ Event.destroy h := fun e => hx (Event.destroy.inj e)
      simp [List.count_cons, ih, hx, this]

theorem destroyOld_live_of_owned (s : State) (hs : Owned s) : (destroyOld s).live = [] := by
  apply List.eq_nil_iff_forall_not_mem.mpr
  intro h hh
  have hmem := (mem_destroyOld_live s h).mp hh
  exact hmem.2 ((hs.held_live h).mp hmem.1)

theorem owned_initState (dom : String → Option Element) : Owned (initState dom) :=
  ⟨by simp [initState, heldIds], by simp [initState, heldIds], by simp [initState]⟩

theorem owned_renderCharts (a b c d : Json) (s : State) (hs : Owned s) :
    Owned (renderCharts a b c d s).2 := by
  have hlive := destroyOld_live_of_owned s hs
  have hch := destroyOld_charts s
  cases h1 : repeatConfig a <;> cases h2 : monthlyConfig b <;> cases h3 : regionalConfig c <;>
    cases h4 : topConfig d <;>
    simp only [renderCharts, h1, h2, h3, h4] <;>
    refine ⟨?_, ?_, ?_⟩ <;>
    simp [createInto, newChart, emit, Charts.set, heldIds, hlive, hch] <;>
    omega

/-- C1. After `renderCharts` returns on four datasets of records, from any
chart-handle state the renderer maintains: every previously live handle has
been destroyed exactly once and is no longer live, each of the four slots
holds a newly created handle, and exactly those four handles are live. -/
theorem renderCharts_replaces_handles (s : State) (rp mo rg tp : List Record) (hs : Owned s) :
    ∃ s1 : State, renderCharts (recs rp) (recs mo) (recs rg) (recs tp) s = (.ok (), s1) ∧
      s1.charts.repeat_.map Chart.id = some s.nextId ∧
      s1.charts.monthly.map Chart.id = some (s.nextId + 1) ∧
      s1.charts.regional.map Chart.id = some (s.nextId + 2) ∧
      s1.charts.top.map Chart.id = some (s.nextId + 3) ∧
      s1.live = [s.nextId, s.nextId + 1, s.nextId + 2, s.nextId + 3] ∧
      s1.live.length = 4 ∧
      (∀ h ∈ s.live, h ∉ s1.live ∧ (s1.log.drop s.log.length).count (.destroy h) = 1) ∧
      (∀ h ∈ s1.live, h ∉ s.live) ∧
      s1.log = s.log ++ (heldIds s.charts).map Event.destroy ++
        [.create s.nextId "chartRepeat", .create (s.nextId + 1) "chartMonthly",
         .create (s.nextId + 2) "chartRegional", .create (s.nextId + 3) "chartTop"] ∧
      Owned s1 := by
  have hlive := destroyOld_live_of_owned s hs
  refine ⟨_, renderCharts_recs s rp mo rg tp, ?_⟩
  have hlog := destroyOld_log s
  have hch := destroyOld_charts s
  have hn := destroyOld_nextId s
  simp only [createInto, newChart, emit, Charts.set, hlive, hlog, hch, hn]
  refine ⟨rfl, rfl, rfl, rfl, by simp, by simp, ?_, ?_, by simp, ?_⟩
  · intro h hh
    constructor
    · have := hs.fresh h hh
      simp only [List.nil_append, List.cons_append, List.mem_cons, List.mem_singleton,
        List.not_mem_nil, or_false, not_or]
      omega
    · have hmem := (hs.held_live h).mp hh
      simp only [List.append_assoc, List.drop_left, List.count_append, count_destroy_map]
      have := List.count_eq_one_of_mem hs.distinct hmem
      simp [this, List.count_cons]
  · intro h hh hold
    have := hs.fresh h hold
    simp only [List.nil_append, List.cons_append, List.mem_cons, List.mem_singleton,
      List.not_mem_nil, or_false] at hh
    omega
  · refine ⟨?_, ?_, ?_⟩
    · simp [heldIds]; omega
    · intro h; simp [heldIds]
    · intro h; simp; omega

@[simp]
theorem emit_dom (e : Event) (s : State) : (emit e s).dom = s.dom := rfl
@[simp]
theorem emit_charts (e : Event) (s : State) : (emit e s).charts = s.charts := rfl
@[simp]
theorem emit_live (e : Event) (s : State) : (emit e s).live = s.live := rfl
@[simp]
theorem emit_nextId (e : Event) (s : State) : (emit e s).nextId = s.nextId := rfl
@[simp]
theorem emit_log (e : Event) (s : State) : (emit e s).log = s.log ++ [e] := rfl

theorem requestsOf_append (a b : List Event) :
    requestsOf (a ++ b) = requestsOf a ++ requestsOf b := by
  induction a with
  | nil => rfl
  | cons e es ih => cases e <;> simp [requestsOf, ih]

theorem requestsOf_destroys (ids : List Nat) : requestsOf (ids.map Event.destroy) = [] := by
  induction ids with
  | nil => rfl
  | cons x xs ih => simp [requestsOf, ih]

theorem toStr_lit (t : String) : (jsOr (lit t) (.val (.str ""))).toStr = .ok t := by
  unfold jsOr lit
  by_cases h : t = ""
  · subst h; simp [truthy, JsVal.toStr, Json.toStr]
  · simp [truthy, h, JsVal.toStr, Json.toStr]

theorem setStatus_of_text (id : String) (m : JsVal) (ok : Bool) (s : State) (t : String)
    (h : (jsOr m (.val (.str ""))).toStr = .ok t) :
    setStatus id m ok s = (.ok (), writeStatus id t ok s) := by
  unfold setStatus writeStatus
  cases getElementById s id <;> simp [h]

theorem setStatus_throws (id : String) (m : JsVal) (ok : Bool) (s : State) (el : Element)
    (e : JsError) (hel : s.dom id = some el) (h : (jsOr m (.val (.str ""))).toStr = .error e) :
    setStatus id m ok s = (.error e, s) := by
  simp [setStatus, getElementById, hel, h]

theorem setStatus_lit (id t : String) (ok : Bool) (s : State) :
    setStatus id (lit t) ok s = (.ok (), writeStatus id t ok s) :=
  setStatus_of_text id (lit t) ok s t (toStr_lit t)

theorem refreshFailed_eq (s : State) :
    refreshFailed s =
      (.ok (), writeStatus "statusKpi" "Failed to load KPIs." false (emit .consoleError s)) :=
  setStatus_lit _ _ _ _

theorem uploadFailed_eq (s : State) :
    uploadFailed s =
      (.ok (), writeStatus "statusUpload" "Upload failed." false (emit .consoleError s)) :=
  setStatus_lit _ _ _ _

theorem cleanFailed_eq (s : State) :
    cleanFailed s =
      (.ok (), writeStatus "statusClean" "Cleaning failed." false (emit .consoleError s)) :=
  setStatus_lit _ _ _ _

theorem loadFailed_eq (s : State) :
    loadFailed s =
      (.ok (), writeStatus "statusLoad" "DB load failed." false (emit .consoleError s)) :=
  setStatus_lit _ _ _ _

@[simp]
theorem writeStatus_charts (id t : String) (ok : Bool) (s : State) :
    (writeStatus id t ok s).charts = s.charts := by
  unfold writeStatus getElementById
  cases s.dom id <;> rfl

@[simp]
theorem writeStatus_live (id t : String) (ok : Bool) (s : State) :
    (writeStatus id t ok s).live = s.live := by
  unfold writeStatus getElementById
  cases s.dom id <;> rfl

@[simp]
theorem writeStatus_nextId (id t : String) (ok : Bool) (s : State) :
    (writeStatus id t ok s).nextId = s.nextId := by
  unfold writeStatus getElementById
  cases s.dom id <;> rfl

theorem writeStatus_dom_ne (id t : String) (ok : Bool) (s : State) (i : String)
    (h : i ≠ id) : (writeStatus id t ok s).dom i = s.dom i := by
  unfold writeStatus getElementById
  cases s.dom id <;> simp [putElement, h]

theorem writeStatus_dom_eq (id t : String) (ok : Bool) (s : State) (el : Element)
    (h : s.dom id = some el) :
    (writeStatus id t ok s).dom id =
      some { el with textContent := t, className := statusClass ok } := by
  simp [writeStatus, getElementById, h, putElement]

theorem writeStatus_log (id t : String) (ok : Bool) (s : State) (el : Element)
    (h : s.dom id = some el) :
    (writeStatus id t ok s).log = s.log ++ [.status id t (statusClass ok)] := by
  simp [writeStatus, getElementById, h, putElement]

@[simp]
theorem requestsOf_writeStatus (id t : String) (ok : Bool) (s : State) :
    requestsOf (writeStatus id t ok s).log = requestsOf s.log := by
  unfold writeStatus getElementById
  cases s.dom id <;> simp [putElement, requestsOf_append, requestsOf]

theorem writeStatus_dom_isSome (id t : String) (ok : Bool) (s : State) (i : String) :
    ((writeStatus id t ok s).dom i).isSome = (s.dom i).isSome := by
  unfold writeStatus getElementById
  cases h : s.dom id
  · rfl
  · by_cases hi : i = id
    · subst hi; simp [putElement, h]
    · simp [putElement, hi]

theorem writeStatus_log_extends (id t : String) (ok : Bool) (s : State) :
    s.log <+: (writeStatus id t ok s).log := by
  unfold writeStatus getElementById
  cases s.dom id
  · exact List.prefix_refl _
  · exact List.prefix_append _ _

@[simp]
theorem scrollToEl_dom (id : String) (s : State) : (scrollToEl id s).dom = s.dom := by
  unfold scrollToEl getElementById
  cases s.dom id <;> rfl

@[simp]
theorem scrollToEl_charts (id : String) (s : State) :
    (scrollToEl id s).charts = s.charts := by
  unfold scrollToEl getElementById
  cases s.dom id <;> rfl

@[simp]
theorem scrollToEl_live (id : String) (s : State) : (scrollToEl id s).live = s.live := by
  unfold scrollToEl getElementById
  cases s.dom id <;> rfl

@[simp]
theorem requestsOf_scrollToEl (id : String) (s : State) :
    requestsOf (scrollToEl id s).log = requestsOf s.log := by
  unfold scrollToEl getElementById
  cases s.dom id <;> simp [requestsOf_append, requestsOf]

@[simp]
theorem createInto_dom (k : Key) (cv : String) (cfg : ChartConfig) (s : State) :
    (createInto k cv cfg s).dom = s.dom := rfl

@[simp]
theorem requestsOf_createInto (k : Key) (cv : String) (cfg : ChartConfig) (s : State) :
    requestsOf (createInto k cv cfg s).log = requestsOf s.log := by
  simp [createInto, newChart, requestsOf_append, requestsOf]

@[simp]
theorem requestsOf_destroyOld (s : State) :
    requestsOf (destroyOld s).log = requestsOf s.log := by
  simp [destroyOld_log, requestsOf_append, requestsOf_destroys]

theorem renderCharts_dom (a b c d : Json) (s : State) :
    (renderCharts a b c d s).2.dom = s.dom := by
  cases h1 : repeatConfig a <;> cases h2 : monthlyConfig b <;> cases h3 : regionalConfig c <;>
    cases h4 : topConfig d <;> simp [renderCharts, h1, h2, h3, h4, destroyOld_dom]

theorem requestsOf_renderCharts (a b c d : Json) (s : State) :
    requestsOf (renderCharts a b c d s).2.log = requestsOf s.log := by
  cases h1 : repeatConfig a <;> cases h2 : monthlyConfig b <;> cases h3 : regionalConfig c <;>
    cases h4 : topConfig d <;> simp [renderCharts, h1, h2, h3, h4]

theorem renderCharts_result (a b c d : Json) (s t : State) :
    (renderCharts a b c d s).1 = (renderCharts a b c d t).1 := by
  cases h1 : repeatConfig a <;> cases h2 : monthlyConfig b <;> cases h3 : regionalConfig c <;>
    cases h4 : topConfig d <;> simp [renderCharts, h1, h2, h3, h4]

theorem baseKpi_of_selector (s : State) (el : Element) (h : s.dom "sourceMode" = some el) :
    baseKpi s = .ok (if el.value = some "db" then "/kpi/db" else "/kpi/memory") := by
  simp [baseKpi, getElementById, h]

theorem refreshKpis_returns (net : Net) (s : State) (base : String) (hb : baseKpi s = .ok base) :
    (refreshKpis net s).1 = .ok () := by
  simp only [refreshKpis, hb, setStatus_lit, refreshFailed_eq]
  split
  · split <;> rfl
  · rfl

theorem requestsOf_refreshKpis (net : Net) (s : State) (base : String)
    (hb : baseKpi s = .ok base) :
    requestsOf (refreshKpis net s).2.log = requestsOf s.log ++
      [getReq (base ++ "/repeat-customers"), getReq (base ++ "/monthly-order-trends"),
       getReq (base ++ "/regional-revenue"), getReq (base ++ "/top-customers?limit=10")] := by
  simp only [refreshKpis, hb, setStatus_lit, refreshFailed_eq]
  split
  · rename_i a b c d _ _ _ _
    have hr := requestsOf_renderCharts a b c d
      (emit (.fetch (getReq (base ++ "/top-customers?limit=10")))
        (emit (.fetch (getReq (base ++ "/regional-revenue")))
          (emit (.fetch (getReq (base ++ "/monthly-order-trends")))
            (emit (.fetch (getReq (base ++ "/repeat-customers"))) s))))
    split
    · rename_i s5 heq
      rw [heq] at hr
      simp only [requestsOf_writeStatus, emit_log, requestsOf_append]
      simpa [requestsOf_append, requestsOf] using hr
    · rename_i s5 heq
      rw [heq] at hr
      simp only [requestsOf_writeStatus]
      simpa [requestsOf_append, requestsOf] using hr
  · simp [requestsOf_append, requestsOf]

theorem refreshKpis_dom_ne (net : Net) (s : State) (i : String) (hi : i ≠ "statusKpi") :
    (refreshKpis net s).2.dom i = s.dom i := by
  simp only [refreshKpis, setStatus_lit, refreshFailed_eq]
  split
  · rfl
  · split
    · split
      · rename_i s5 heq
        have h1 := congrArg (fun p => p.2.dom) heq
        simp only [renderCharts_dom, emit_dom] at h1
        rw [writeStatus_dom_ne _ _ _ _ _ hi, emit_dom, ← h1]
      · rename_i s5 heq
        have h1 := congrArg (fun p => p.2.dom) heq
        simp only [renderCharts_dom, emit_dom] at h1
        rw [writeStatus_dom_ne _ _ _ _ _ hi, ← h1]
    · rw [writeStatus_dom_ne _ _ _ _ _ hi]
      rfl

theorem respond_failed (net : Net) (r : Request)
    (h : net r = .rejected ∨ net r = .notJson) : ∃ e, respond net r = .error e := by
  rcases h with h | h <;> simp [respond, h]
/-- C2. With mode selector value `m`, the requests `refreshKpis` issues are
exactly the four GETs under the prefix `baseKpi` returns, which is `/kpi/db`
when `m` is `db` and `/kpi/memory` otherwise. -/
theorem refreshKpis_targets_mode_endpoints (net : Net) (s : State) (el : Element) (m : String)
    (hel : getElementById s "sourceMode" = some el) (hm : el.value = some m) :
    baseKpi s = .ok (if m = "db" then "/kpi/db" else "/kpi/memory") ∧
    requestsOf (refreshKpis net s).2.log = requestsOf s.log ++
      [{ method := "GET", body := none,
         url := (if m = "db" then "/kpi/db" else "/kpi/memory") ++ "/repeat-customers" },
       { method := "GET", body := none,
         url := (if m = "db" then "/kpi/db" else "/kpi/memory") ++ "/monthly-order-trends" },
       { method := "GET", body := none,
         url := (if m = "db" then "/kpi/db" else "/kpi/memory") ++ "/regional-revenue" },
       { method := "GET", body := none,
         url := (if m = "db" then "/kpi/db" else "/kpi/memory") ++ "/top-customers?limit=10" }] := by
  have hb : baseKpi s = .ok (if m = "db" then "/kpi/db" else "/kpi/memory") := by
    simp [baseKpi, hel, hm]
  exact ⟨hb, requestsOf_refreshKpis net s _ hb⟩

/-- C5. When at least one of the four KPI requests fails, `refreshKpis` ends
with the KPI status region showing the failure text in the failure style; its
only effects are the four requests, the diagnostic and that status, so no
chart is destroyed or created and the chart handles are what they were. -/
theorem refreshKpis_failure_keeps_charts (net : Net) (s : State) (base : String) (kel : Element)
    (hb : baseKpi s = .ok base) (hk : s.dom "statusKpi" = some kel)
    (hfail : ∃ r ∈ kpiRequests base, net r = .rejected ∨ net r = .notJson) :
    (refreshKpis net s).1 = .ok () ∧
    textOf (refreshKpis net s).2 "statusKpi" = some "Failed to load KPIs." ∧
    classOf (refreshKpis net s).2 "statusKpi" = some (statusClass false) ∧
    (refreshKpis net s).2.log = s.log ++ (kpiRequests base).map Event.fetch ++
      [.consoleError, .status "statusKpi" "Failed to load KPIs." (statusClass false)] ∧
    (refreshKpis net s).2.charts = s.charts ∧
    (refreshKpis net s).2.live = s.live ∧
    (refreshKpis net s).2.nextId = s.nextId := by
  have hrun : refreshKpis net s = (.ok (),
      writeStatus "statusKpi" "Failed to load KPIs." false (emit .consoleError
      (emit (.fetch (getReq (base ++ "/top-customers?limit=10")))
        (emit (.fetch (getReq (base ++ "/regional-revenue")))
          (emit (.fetch (getReq (base ++ "/monthly-order-trends")))
            (emit (.fetch (getReq (base ++ "/repeat-customers"))) s)))))) := by
    simp only [refreshKpis, hb, setStatus_lit, refreshFailed_eq]
    split
    · rename_i h1 h2 h3 h4
      obtain ⟨r, hr, hbad⟩ := hfail
      obtain ⟨e, he⟩ := respond_failed net r hbad
      simp only [kpiRequests, List.mem_cons, List.mem_singleton, List.not_mem_nil,
        or_false] at hr
      rcases hr with rfl | rfl | rfl | rfl
      · rw [he] at h1; cases h1
      · rw [he] at h2; cases h2
      · rw [he] at h3; cases h3
      · rw [he] at h4; cases h4
    · rfl
  rw [hrun]
  have hk4 : (emit Event.consoleError
      (emit (.fetch (getReq (base ++ "/top-customers?limit=10")))
        (emit (.fetch (getReq (base ++ "/regional-revenue")))
          (emit (.fetch (getReq (base ++ "/monthly-order-trends")))
            (emit (.fetch (getReq (base ++ "/repeat-customers"))) s))))).dom "statusKpi"
      = some kel := by simpa using hk
  refine ⟨rfl, ?_, ?_, ?_, ?_, ?_, ?_⟩
  · simp [textOf, writeStatus_dom_eq _ _ _ _ _ hk4]
  · simp [classOf, writeStatus_dom_eq _ _ _ _ _ hk4]
  · simp [writeStatus_log _ _ _ _ _ hk4, kpiRequests]
  · simp
  · simp
  · simp

/-- C3. With neither file selected, `uploadFiles` returns after a single
effect: the upload status region gets the validation text in the failure
style. No request is issued, no other status is set and nothing scrolls. -/
theorem uploadFiles_without_files (net : Net) (s : State) (el : Element)
    (hc : firstFile s "customersFile" = .ok none) (ho : firstFile s "ordersFile" = .ok none)
    (hel : s.dom "statusUpload" = some el) :
    (uploadFiles net s).1 = .ok () ∧
    textOf (uploadFiles net s).2 "statusUpload"
      = some "Please choose at least one file to upload." ∧
    classOf (uploadFiles net s).2 "statusUpload" = some (statusClass false) ∧
    (uploadFiles net s).2.log = s.log ++
      [.status "statusUpload" "Please choose at least one file to upload." (statusClass false)] ∧
    requestsOf (uploadFiles net s).2.log = requestsOf s.log := by
  have hrun : uploadFiles net s = (.ok (),
      writeStatus "statusUpload" "Please choose at least one file to upload." false s) := by
    simp [uploadFiles, hc, ho, setStatus_lit]
  rw [hrun]
  refine ⟨rfl, ?_, ?_, ?_, ?_⟩
  · simp [textOf, writeStatus_dom_eq _ _ _ _ _ hel]
  · simp [classOf, writeStatus_dom_eq _ _ _ _ _ hel]
  · simp [writeStatus_log _ _ _ _ _ hel]
  · simp

/-- C4. With exactly one file selected, `uploadFiles` issues exactly one
request whatever its outcome: a POST to the endpoint of the selected file,
whose body holds that file under the single field name `file`. -/
theorem uploadFiles_single_request (net : Net) (s : State) (cust orders : Option File) (f : File)
    (hc : firstFile s "customersFile" = .ok cust) (ho : firstFile s "ordersFile" = .ok orders)
    (hone : (cust = some f ∧ orders = none) ∨ (cust = none ∧ orders = some f)) :
    requestsOf (uploadFiles net s).2.log = requestsOf s.log ++
      [{ method := "POST",
         url := if cust = some f then "/upload/customers" else "/upload/orders",
         body := some [("file", f)] }] := by
  rcases hone with ⟨rfl, rfl⟩ | ⟨rfl, rfl⟩
  · simp only [uploadFiles, hc, ho, uploadOne, setStatus_lit, uploadFailed_eq]
    cases hr : respond net (postReq "/upload/customers" (some [("file", f)])) <;>
      simp [requestsOf_append, requestsOf, postReq]
  · simp only [uploadFiles, hc, ho, uploadOne, setStatus_lit, uploadFailed_eq]
    cases hr : respond net (postReq "/upload/orders" (some [("file", f)])) <;>
      simp [requestsOf_append, requestsOf, postReq]

/-- C9. When the POST of a trigger fails, its status region ends with the
failure text in the failure style; the only effects are the in-progress
status, the POST, the diagnostic and the failure status, so nothing scrolls,
no KPI request is issued, and the KPI status region and the chart handles
are untouched. -/
theorem trigger_post_failure_skips_refresh (t : Trigger) (net : Net) (s : State) (el : Element)
    (hfail : net (postReq t.url none) = .rejected ∨ net (postReq t.url none) = .notJson)
    (hel : s.dom t.statusId = some el) :
    (t.run net s).1 = .ok () ∧
    textOf (t.run net s).2 t.statusId = some t.failText ∧
    classOf (t.run net s).2 t.statusId = some (statusClass false) ∧
    (t.run net s).2.log = s.log ++
      [.status t.statusId t.progress (statusClass true), .fetch (postReq t.url none),
       .consoleError, .status t.statusId t.failText (statusClass false)] ∧
    requestsOf (t.run net s).2.log = requestsOf s.log ++ [postReq t.url none] ∧
    (t.run net s).2.dom "statusKpi" = s.dom "statusKpi" ∧
    (t.run net s).2.charts = s.charts ∧
    (t.run net s).2.live = s.live := by
  obtain ⟨e, he⟩ := respond_failed net _ hfail
  have hrun : t.run net s = (.ok (),
      writeStatus t.statusId t.failText false (emit .consoleError
        (emit (.fetch (postReq t.url none)) (writeStatus t.statusId t.progress true s)))) := by
    cases t
    · simp only [Trigger.url] at he
      simp [Trigger.run, runClean, he, cleanFailed_eq, setStatus_lit, Trigger.statusId,
        Trigger.failText, Trigger.url, Trigger.progress]
    · simp only [Trigger.url] at he
      simp [Trigger.run, runLoad, he, loadFailed_eq, setStatus_lit, Trigger.statusId,
        Trigger.failText, Trigger.url, Trigger.progress]
  have hne : "statusKpi" ≠ t.statusId := by cases t <;> decide
  have h1 := writeStatus_dom_eq t.statusId t.progress true s el hel
  have h2 : (emit Event.consoleError (emit (.fetch (postReq t.url none))
      (writeStatus t.statusId t.progress true s))).dom t.statusId = _ := h1
  rw [hrun]
  refine ⟨rfl, ?_, ?_, ?_, ?_, ?_, ?_, ?_⟩
  · simp [textOf, writeStatus_dom_eq _ _ _ _ _ h2]
  · simp [classOf, writeStatus_dom_eq _ _ _ _ _ h2]
  · simp [writeStatus_log _ _ _ _ _ h2, writeStatus_log _ _ _ _ _ hel]
  · simp [requestsOf_append, requestsOf]
  · simp [writeStatus_dom_ne _ _ _ _ _ hne]
  · simp
  · simp

theorem respond_json (net : Net) (r : Request) (v : Json) (h : net r = .json v) :
    respond net r = .ok v := by
  simp [respond, h]

theorem refreshFailed_status (s : State) (kel : Element) (hk : s.dom "statusKpi" = some kel) :
    textOf (refreshFailed s).2 "statusKpi" = some "Failed to load KPIs." ∧
    classOf (refreshFailed s).2 "statusKpi" = some (statusClass false) := by
  have hk1 : (emit Event.consoleError s).dom "statusKpi" = some kel := hk
  rw [refreshFailed_eq]
  constructor
  · simp [textOf, writeStatus_dom_eq _ _ _ _ _ hk1]
  · simp [classOf, writeStatus_dom_eq _ _ _ _ _ hk1]

theorem refreshKpis_status_of_fails (net : Net) (s : State) (base : String) (kel : Element)
    (hb : baseKpi s = .ok base) (hk : s.dom "statusKpi" = some kel)
    (hfail : RefreshFails net base) :
    textOf (refreshKpis net s).2 "statusKpi" = some "Failed to load KPIs." ∧
    classOf (refreshKpis net s).2 "statusKpi" = some (statusClass false) := by
  simp only [refreshKpis, hb, setStatus_lit]
  split
  · rename_i a b c d h1 h2 h3 h4
    split
    · rename_i e s5 heq
      have h1 := congrArg (fun p => p.2.dom) heq
      simp only [renderCharts_dom, emit_dom] at h1
      exact refreshFailed_status s5 kel (by rw [← h1]; exact hk)
    · rename_i u s5 heq
      exfalso
      rcases hfail with ⟨r, hr, hbad⟩ | ⟨a1, b1, c1, d1, st, ha, hb1, hc, hd, hthrow⟩
      · obtain ⟨e, he⟩ := respond_failed net r hbad
        simp only [kpiRequests, List.mem_cons, List.mem_singleton, List.not_mem_nil,
          or_false] at hr
        rcases hr with rfl | rfl | rfl | rfl
        · rw [he] at h1; cases h1
        · rw [he] at h2; cases h2
        · rw [he] at h3; cases h3
        · rw [he] at h4; cases h4
      · rw [respond_json _ _ _ ha] at h1
        rw [respond_json _ _ _ hb1] at h2
        rw [respond_json _ _ _ hc] at h3
        rw [respond_json _ _ _ hd] at h4
        cases h1; cases h2; cases h3; cases h4
        apply hthrow
        rw [renderCharts_result a b c d st, heq]
  · exact refreshFailed_status _ kel hk

theorem getProp_of_ne_null (body : Json) (k : String) (h : body ≠ .null) :
    ∃ m, getProp body k = .ok m := by
  cases body with
  | null => exact absurd rfl h
  | obj r => exact ⟨_, getProp_obj r k⟩
  | bool b => exact ⟨_, rfl⟩
  | num n => exact ⟨_, rfl⟩
  | str t => exact ⟨_, rfl⟩
  | arr xs => exact ⟨_, rfl⟩

theorem toStr_or_fallback (m : JsVal) (fb : String) (hfb : fb ≠ "") :
    (jsOr (jsOr m (lit fb)) (.val (.str ""))).toStr
      = if truthy m then m.toStr else .ok fb := by
  by_cases hm : truthy m = true
  · simp [jsOr, hm]
  · have hm1 : truthy m = false := by simpa using hm
    have ht : truthy (lit fb) = true := by simp [lit, truthy, hfb]
    have h1 : jsOr m (lit fb) = lit fb := by simp [jsOr, hm1]
    have h2 : jsOr (lit fb) (.val (.str "")) = lit fb := by simp [jsOr, ht]
    rw [h1, h2]
    simp [hm1, lit, JsVal.toStr, Json.toStr]

theorem trigger_run_success (t : Trigger) (net : Net) (s : State) (body : Json) (m : JsVal)
    (sel : Element) (text : String) (hpost : net (postReq t.url none) = .json body)
    (hm : getProp body "message" = .ok m) (hsel : s.dom "sourceMode" = some sel)
    (hconv : (if truthy m then m.toStr else .ok t.fallback) = .ok text) :
    (refreshKpis net (t.beforeRefresh text s)).1 = .ok () ∧
    t.run net s = (.ok (), (refreshKpis net (t.beforeRefresh text s)).2) := by
  have hne : "sourceMode" ≠ t.statusId := by cases t <;> decide
  have hfb : t.fallback ≠ "" := by cases t <;> decide
  have hsel4 : (t.beforeRefresh text s).dom "sourceMode" = some sel := by
    simp [Trigger.beforeRefresh, writeStatus_dom_ne _ _ _ _ _ hne, hsel]
  have hret := refreshKpis_returns net _ _ (baseKpi_of_selector _ sel hsel4)
  refine ⟨hret, ?_⟩
  have hresp := respond_json net _ body hpost
  have hset : ∀ s2, setStatus t.statusId (jsOr m (lit t.fallback)) true s2
      = (.ok (), writeStatus t.statusId text true s2) := fun s2 =>
    setStatus_of_text _ _ _ _ _ ((toStr_or_fallback m _ hfb).trans hconv)
  cases t
  · simp only [Trigger.url] at hresp
    simp only [Trigger.statusId, Trigger.fallback] at hset
    simp only [Trigger.beforeRefresh, Trigger.target, Trigger.statusId, Trigger.fallback,
      Trigger.url, Trigger.progress] at hret
    simp only [Trigger.run, runClean, hresp, hm, hset, setStatus_lit, Trigger.beforeRefresh,
      Trigger.target, Trigger.statusId, Trigger.fallback, Trigger.url, Trigger.progress]
    split
    · rename_i e s5 heq
      rw [heq] at hret; cases hret
    · rename_i u s5 heq
      rw [heq]
  · simp only [Trigger.url] at hresp
    simp only [Trigger.statusId, Trigger.fallback] at hset
    simp only [Trigger.beforeRefresh, Trigger.target, Trigger.statusId, Trigger.fallback,
      Trigger.url, Trigger.progress] at hret
    simp only [Trigger.run, runLoad, hresp, hm, hset, setStatus_lit, Trigger.beforeRefresh,
      Trigger.target, Trigger.statusId, Trigger.fallback, Trigger.url, Trigger.progress]
    split
    · rename_i e s5 heq
      rw [heq] at hret; cases hret
    · rename_i u s5 heq
      rw [heq]

theorem trigger_status_after_success (t : Trigger) (net : Net) (s : State) (text : String)
    (tel : Element) (htel : s.dom t.statusId = some tel) :
    textOf (refreshKpis net (t.beforeRefresh text s)).2 t.statusId = some text ∧
    classOf (refreshKpis net (t.beforeRefresh text s)).2 t.statusId
      = some (statusClass true) := by
  have hne : t.statusId ≠ "statusKpi" := by cases t <;> decide
  have h1 := writeStatus_dom_eq t.statusId t.progress true s tel htel
  have h2 : (emit (Event.fetch (postReq t.url none))
      (writeStatus t.statusId t.progress true s)).dom t.statusId = _ := h1
  constructor
  · simp [textOf, refreshKpis_dom_ne _ _ _ hne, Trigger.beforeRefresh,
      writeStatus_dom_eq _ _ _ _ _ h2]
  · simp [classOf, refreshKpis_dom_ne _ _ _ hne, Trigger.beforeRefresh,
      writeStatus_dom_eq _ _ _ _ _ h2]

theorem scrollToEl_log_extends (id : String) (s : State) : s.log <+: (scrollToEl id s).log := by
  unfold scrollToEl getElementById
  cases s.dom id
  · exact List.prefix_refl _
  · exact List.prefix_append _ _

theorem renderCharts_log_extends (a b c d : Json) (s : State) :
    s.log <+: (renderCharts a b c d s).2.log := by
  cases h1 : repeatConfig a <;> cases h2 : monthlyConfig b <;> cases h3 : regionalConfig c <;>
    cases h4 : topConfig d <;>
    simp only [renderCharts, h1, h2, h3, h4, createInto, newChart, emit_log, destroyOld_log,
      List.append_assoc] <;>
    exact List.prefix_append _ _

theorem renderCharts_log_extends_of_eq {a b c d : Json} {s s5 : State} {r : Except JsError Unit}
    (h : renderCharts a b c d s = (r, s5)) : s.log <+: s5.log := by
  have h2 := renderCharts_log_extends a b c d s
  rw [h] at h2
  exact h2

theorem refreshKpis_log_extends (net : Net) (s : State) : s.log <+: (refreshKpis net s).2.log := by
  simp only [refreshKpis, setStatus_lit, refreshFailed_eq]
  split
  · exact List.prefix_refl _
  · rename_i base _
    have h4 : s.log <+: (emit (.fetch (getReq (base ++ "/top-customers?limit=10")))
        (emit (.fetch (getReq (base ++ "/regional-revenue")))
          (emit (.fetch (getReq (base ++ "/monthly-order-trends")))
            (emit (.fetch (getReq (base ++ "/repeat-customers"))) s)))).log := by
      simp only [emit_log, List.append_assoc]
      exact List.prefix_append _ _
    split
    · split
      · rename_i s5 heq
        have h2 := renderCharts_log_extends_of_eq heq
        exact (h4.trans h2).trans
          ((List.prefix_append _ _).trans (writeStatus_log_extends _ _ _ (emit .consoleError s5)))
      · rename_i s5 heq
        have h2 := renderCharts_log_extends_of_eq heq
        exact (h4.trans h2).trans (writeStatus_log_extends _ _ _ _)
    · exact h4.trans
        ((List.prefix_append _ _).trans (writeStatus_log_extends _ _ _ (emit .consoleError _)))

/-- C6 (amended). When POST /clean answers with a JSON body other than `null`
and the mode selector exists, `runClean` returns; and when the `message` of
the body is absent or falsy, or is truthy and converts to a string without
throwing, the clean status region shows at the end, in the success style,
the fallback text in the first case and the converted message in the second.
That status was set during the run. A non-empty string message is shown as
it is; the body with no `message` gives the fallback. -/
theorem runClean_success_text (net : Net) (s : State) (body : Json) (cel sel : Element)
    (hpost : net (postReq "/clean" none) = .json body) (hbody : body ≠ .null)
    (hcel : s.dom "statusClean" = some cel) (hsel : s.dom "sourceMode" = some sel) :
    ∃ m, getProp body "message" = .ok m ∧
      (∀ text : String,
        (if truthy m then m.toStr else .ok "Cleaning completed.") = .ok text →
          (runClean net s).1 = .ok () ∧
          textOf (runClean net s).2 "statusClean" = some text ∧
          classOf (runClean net s).2 "statusClean" = some (statusClass true) ∧
          Event.status "statusClean" text (statusClass true) ∈ (runClean net s).2.log) ∧
      (∀ t : String, m = .val (.str t) → t ≠ "" →
        textOf (runClean net s).2 "statusClean" = some t) ∧
      (m = .undefined → textOf (runClean net s).2 "statusClean" = some "Cleaning completed.") := by
  obtain ⟨m, hm⟩ := getProp_of_ne_null body "message" hbody
  have main : ∀ text : String,
      (if truthy m then m.toStr else .ok "Cleaning completed.") = .ok text →
        (runClean net s).1 = .ok () ∧
        textOf (runClean net s).2 "statusClean" = some text ∧
        classOf (runClean net s).2 "statusClean" = some (statusClass true) ∧
        Event.status "statusClean" text (statusClass true) ∈ (runClean net s).2.log := by
    intro text hconv
    obtain ⟨_, hrun⟩ := trigger_run_success .clean net s body m sel text hpost hm hsel hconv
    obtain ⟨htext, hcls⟩ := trigger_status_after_success .clean net s text cel hcel
    have hrun1 : runClean net s = _ := hrun
    rw [hrun1]
    refine ⟨rfl, htext, hcls, ?_⟩
    apply (refreshKpis_log_extends net _).subset
    apply (scrollToEl_log_extends _ _).subset
    have h2 : (emit (Event.fetch (postReq "/clean" none))
        (writeStatus "statusClean" "Cleaning in progress..." true s)).dom "statusClean" = _ :=
      writeStatus_dom_eq "statusClean" "Cleaning in progress..." true s cel hcel
    simp [Trigger.statusId, Trigger.url, Trigger.progress, writeStatus_log _ _ _ _ _ h2]
  refine ⟨m, hm, main, ?_, ?_⟩
  · intro t ht hne
    refine (main t ?_).2.1
    rw [ht]
    simp [truthy, hne, JsVal.toStr, Json.toStr]
  · intro hu
    refine (main "Cleaning completed." ?_).2.1
    rw [hu]
    simp [truthy]

/-- C10 (amended). When the POST of a trigger answered with a JSON body other
than `null` whose `message` is absent or falsy, or converts to a string
without throwing, the mode selector exists, and the chained refresh fails in
one of its four requests, in parsing a body or in rendering, then
`refreshKpis` returns normally to the trigger, the KPI status region shows
the failure text in the failure style, and the status region of the trigger
keeps its success text and success style. -/
theorem refresh_failure_isolated (t : Trigger) (net : Net) (s : State) (body : Json)
    (tel kel sel : Element)
    (hpost : net (postReq t.url none) = .json body) (hbody : body ≠ .null)
    (htel : s.dom t.statusId = some tel) (hkel : s.dom "statusKpi" = some kel)
    (hsel : s.dom "sourceMode" = some sel)
    (hfail : RefreshFails net (if sel.value = some "db" then "/kpi/db" else "/kpi/memory")) :
    ∃ m, getProp body "message" = .ok m ∧
      ∀ text : String, (if truthy m then m.toStr else .ok t.fallback) = .ok text →
        (refreshKpis net (t.beforeRefresh text s)).1 = .ok () ∧
        t.run net s = (.ok (), (refreshKpis net (t.beforeRefresh text s)).2) ∧
        textOf (t.run net s).2 "statusKpi" = some "Failed to load KPIs." ∧
        classOf (t.run net s).2 "statusKpi" = some (statusClass false) ∧
        textOf (t.run net s).2 t.statusId = some text ∧
        classOf (t.run net s).2 t.statusId = some (statusClass true) := by
  obtain ⟨m, hm⟩ := getProp_of_ne_null body "message" hbody
  refine ⟨m, hm, ?_⟩
  intro text hconv
  obtain ⟨hret, hrun⟩ := trigger_run_success t net s body m sel text hpost hm hsel hconv
  obtain ⟨htext, hcls⟩ := trigger_status_after_success t net s text tel htel
  have hne1 : "sourceMode" ≠ t.statusId := by cases t <;> decide
  have hne2 : "statusKpi" ≠ t.statusId := by cases t <;> decide
  have hsel4 : (t.beforeRefresh text s).dom "sourceMode" = some sel := by
    simp [Trigger.beforeRefresh, writeStatus_dom_ne _ _ _ _ _ hne1, hsel]
  have hkel4 : (t.beforeRefresh text s).dom "statusKpi" = some kel := by
    simp [Trigger.beforeRefresh, writeStatus_dom_ne _ _ _ _ _ hne2, hkel]
  obtain ⟨hkt, hkc⟩ := refreshKpis_status_of_fails net _ _ kel
    (baseKpi_of_selector _ sel hsel4) hkel4 hfail
  refine ⟨hret, hrun, ?_, ?_, ?_, ?_⟩
  · rw [hrun]; exact hkt
  · rw [hrun]; exact hkc
  · rw [hrun]; exact htext
  · rw [hrun]; exact hcls

/-! ## String conversion -/

theorem numberToString_samples :
    numberToString 42 = "42" ∧ numberToString (-7) = "-7" ∧
    numberToString 9007199254740993 = "9007199254740992" ∧
    numberToString 1000000000000000000000 = "1e+21" ∧
    numberToString 123456789012345678901234567890 = "1.2345678901234568e+29" := by
  decide

theorem toStr_own_toString (fields : Record) (v : Json)
    (h : fields.lookup "toString" = some v) : (Json.obj fields).toStr = .error .typeError := by
  simp [Json.toStr, h]

theorem trigger_conversion_throws (t : Trigger) (net : Net) (s : State) (body : Json)
    (m : JsVal) (tel : Element) (e : JsError)
    (hpost : net (postReq t.url none) = .json body) (hm : getProp body "message" = .ok m)
    (htel : s.dom t.statusId = some tel) (hconv : truthy m = true) (hthrow : m.toStr = .error e) :
    t.run net s = (.ok (), writeStatus t.statusId t.failText false (emit .consoleError
      (emit (.fetch (postReq t.url none)) (writeStatus t.statusId t.progress true s)))) := by
  have hfb : t.fallback ≠ "" := by cases t <;> decide
  have hresp := respond_json net _ body hpost
  have h1 := writeStatus_dom_eq t.statusId t.progress true s tel htel
  have h2 : (emit (Event.fetch (postReq t.url none))
      (writeStatus t.statusId t.progress true s)).dom t.statusId = _ := h1
  have hset := setStatus_throws t.statusId (jsOr m (lit t.fallback)) true _ _ e h2
    ((toStr_or_fallback m _ hfb).trans (by simp [hconv, hthrow]))
  cases t
  · simp only [Trigger.url] at hresp
    simp only [Trigger.statusId, Trigger.fallback, Trigger.url, Trigger.progress] at hset
    simp [Trigger.run, runClean, hresp, hm, hset, setStatus_lit, cleanFailed_eq,
      Trigger.statusId, Trigger.failText, Trigger.url, Trigger.progress]
  · simp only [Trigger.url] at hresp
    simp only [Trigger.statusId, Trigger.fallback, Trigger.url, Trigger.progress] at hset
    simp [Trigger.run, runLoad, hresp, hm, hset, setStatus_lit, loadFailed_eq,
      Trigger.statusId, Trigger.failText, Trigger.url, Trigger.progress]

/-! ## Chart contents -/

/-- C7 (amended). For datasets of records, the monthly line chart gets one
label and one y-value per record, in order: the label is the `month` field,
the y-value is `orders_count` when that value is truthy, otherwise `orders`
when that value is truthy, otherwise 0. A record with only `orders: 5` gives
5 and a record with neither field gives 0. -/
theorem monthly_chart_values (s : State) (rp mo rg tp : List Record) :
    ∃ s1 c, renderCharts (recs rp) (recs mo) (recs rg) (recs tp) s = (.ok (), s1) ∧
      s1.charts.monthly = some c ∧ c.canvas = "chartMonthly" ∧ c.config.type = "line" ∧
      c.config.labels = mo.map (fun m => field m "month") ∧
      c.config.data = mo.map (fun m =>
        if truthy (field m "orders_count") then field m "orders_count"
        else if truthy (field m "orders") then field m "orders"
        else .val (.num 0)) ∧
      c.config.labels.length = mo.length ∧ c.config.data.length = mo.length ∧
      orOrZero "orders_count" "orders" (.obj [("month", .str "2024-01"), ("orders", .num 5)])
        = .ok (.val (.num 5)) ∧
      (∀ m : Record, m.lookup "orders_count" = none → m.lookup "orders" = none →
        orOrZero "orders_count" "orders" (.obj m) = .ok (.val (.num 0))) := by
  refine ⟨_, _, renderCharts_recs s rp mo rg tp, rfl, rfl, rfl, rfl, rfl, ?_, ?_, rfl, ?_⟩
  · exact List.length_map _ _
  · exact List.length_map _ _
  · intro m h1 h2
    simp [orOrZero, getProp, h1, h2, truthy, jsOr]

/-- C7 (counterexample). For the record with `orders_count: 0` and `orders: 5`
the monthly chart gets the y-value 5, while the specification, reading the
present `orders_count`, gives 0. -/
theorem monthly_zero_count_falls_through :
    (renderCharts (recs []) (recs [zeroCountRow]) (recs []) (recs [])
        (initState (pageDom "memory" [] []))).2.charts.monthly.map (fun c => c.config.data)
      = some [.val (.num 5)] ∧
    [zeroCountRow].map (presentOrZero "orders_count" "orders") = [.val (.num 0)] ∧
    (renderCharts (recs []) (recs [zeroCountRow]) (recs []) (recs [])
        (initState (pageDom "memory" [] []))).2.charts.monthly.map (fun c => c.config.data)
      ≠ some ([zeroCountRow].map (presentOrZero "orders_count" "orders")) := by
  refine ⟨rfl, rfl, ?_⟩
  intro h
  have h1 : some [JsVal.val (.num 5)] = some [JsVal.val (.num 0)] := h
  simp at h1

/-- C8 (amended). For datasets of records, the regional doughnut chart gets
one label and one value per record, in order: the label is `region` when that
value is truthy and the literal `Unknown` otherwise, the value is `revenue`
when that value is truthy and 0 otherwise. The record with no fields gives
the label `Unknown` and the value 0. -/
theorem regional_chart_values (s : State) (rp mo rg tp : List Record) :
    ∃ s1 c, renderCharts (recs rp) (recs mo) (recs rg) (recs tp) s = (.ok (), s1) ∧
      s1.charts.regional = some c ∧ c.canvas = "chartRegional" ∧ c.config.type = "doughnut" ∧
      c.config.labels = rg.map (fun r =>
        if truthy (field r "region") then field r "region" else .val (.str "Unknown")) ∧
      c.config.data = rg.map (fun r =>
        if truthy (field r "revenue") then field r "revenue" else .val (.num 0)) ∧
      c.config.labels.length = rg.length ∧ c.config.data.length = rg.length ∧
      orLit "region" (.str "Unknown") (.obj []) = .ok (.val (.str "Unknown")) ∧
      orLit "revenue" (.num 0) (.obj []) = .ok (.val (.num 0)) := by
  refine ⟨_, _, renderCharts_recs s rp mo rg tp, rfl, rfl, rfl, rfl, rfl, ?_, ?_, rfl, rfl⟩
  · exact List.length_map _ _
  · exact List.length_map _ _

/-- C8 (counterexample). For the record with `region: ""` the regional chart
gets the label `Unknown`, while the specification, reading the present
`region`, gives the empty label. -/
theorem regional_empty_region_relabelled :
    (renderCharts (recs []) (recs []) (recs [emptyRegionRow]) (recs [])
        (initState (pageDom "memory" [] []))).2.charts.regional.map (fun c => c.config.labels)
      = some [.val (.str "Unknown")] ∧
    [emptyRegionRow].map (presentOr "region" (.str "Unknown")) = [.val (.str "")] ∧
    (renderCharts (recs []) (recs []) (recs [emptyRegionRow]) (recs [])
        (initState (pageDom "memory" [] []))).2.charts.regional.map (fun c => c.config.labels)
      ≠ some ([emptyRegionRow].map (presentOr "region" (.str "Unknown"))) := by
  refine ⟨rfl, rfl, ?_⟩
  intro h
  have h1 : some [JsVal.val (.str "Unknown")] = some [JsVal.val (.str "")] := h
  simp at h1

/-! ## Counterexamples for the triggers -/

/-- C6 (counterexample). A `null` body parses as JSON, yet `runClean` ends
with the failure text in the failure style instead of the fallback; a present
but empty `message` is replaced by the fallback; a `message` object with an
own `toString` key cannot be converted and ends in the failure text; and
without a mode selector the success text `done` is overwritten by the
failure text. -/
theorem runClean_null_body_reports_failure :
    textOf (runClean (stubNet (.json .null) (.json (.arr [])))
        (initState (pageDom "memory" [] []))).2 "statusClean" = some "Cleaning failed." ∧
    classOf (runClean (stubNet (.json .null) (.json (.arr [])))
        (initState (pageDom "memory" [] []))).2 "statusClean" = some (statusClass false) ∧
    textOf (runClean (stubNet (.json .null) (.json (.arr [])))
        (initState (pageDom "memory" [] []))).2 "statusClean" ≠ some "Cleaning completed." ∧
    textOf (runClean (stubNet (.json (.obj [("message", .str "")])) (.json (.arr [])))
        (initState (pageDom "memory" [] []))).2 "statusClean" = some "Cleaning completed." ∧
    textOf (runClean
        (stubNet (.json (.obj [("message", .obj [("toString", .num 1)])])) (.json (.arr [])))
        (initState (pageDom "memory" [] []))).2 "statusClean" = some "Cleaning failed." ∧
    textOf (runClean (stubNet (.json (.obj [("message", .str "done")])) (.json (.arr [])))
        (initState domWithoutSelector)).2 "statusClean" = some "Cleaning failed." := by
  refine ⟨rfl, rfl, ?_, rfl, rfl, rfl⟩
  intro h
  have h1 : some "Cleaning failed." = some "Cleaning completed." := h
  simp at h1

/-- C10 (counterexample). Without a mode selector the chained `refreshKpis`
rejects instead of reporting: after a successful POST /clean the clean status
region ends with the failure text in the failure style and the KPI status
region is never written. -/
theorem selector_failure_reaches_trigger_status :
    (refreshKpis (stubNet (.json (.obj [])) (.json (.arr [])))
        (Trigger.clean.beforeRefresh "Cleaning completed." (initState domWithoutSelector))).1
      = .error .typeError ∧
    textOf (runClean (stubNet (.json (.obj [])) (.json (.arr [])))
        (initState domWithoutSelector)).2 "statusClean" = some "Cleaning failed." ∧
    classOf (runClean (stubNet (.json (.obj [])) (.json (.arr [])))
        (initState domWithoutSelector)).2 "statusClean" = some (statusClass false) ∧
    textOf (runClean (stubNet (.json (.obj [])) (.json (.arr [])))
        (initState domWithoutSelector)).2 "statusKpi" = some "" ∧
    textOf (runClean (stubNet (.json (.obj [])) (.json (.arr [])))
        (initState domWithoutSelector)).2 "statusKpi" ≠ some "Failed to load KPIs." := by
  refine ⟨rfl, rfl, rfl, rfl, ?_⟩
  intro h
  have h1 : some "" = some "Failed to load KPIs." := h
  simp at h1

/-! ## Witnesses -/

/-- C1 (witness). On the page left by a first render, whose four handles 0..3 are
live, a second render leaves exactly the handles 4..7 live. -/
theorem renderCharts_replaces_handles_witness :
    Owned renderedPage ∧
    ∃ s1, renderCharts (recs []) (recs [zeroCountRow]) (recs [emptyRegionRow]) (recs []) renderedPage
        = (.ok (), s1) ∧ s1.live = [4, 5, 6, 7] ∧ s1.live.length = 4 ∧
      ∀ h ∈ [0, 1, 2, 3], h ∉ s1.live := by
  have hO : Owned renderedPage := ⟨by decide, fun _ => Iff.rfl, by decide⟩
  obtain ⟨s1, h1, _, _, _, _, h6, h7, h8, _⟩ :=
    renderCharts_replaces_handles renderedPage [] [zeroCountRow] [emptyRegionRow] [] hO
  exact ⟨hO, s1, h1, h6, h7, fun h hh => (h8 h hh).1⟩

/-- C2 (witness). With the selector at `db` the four requests go to `/kpi/db/...`. -/
theorem refreshKpis_targets_mode_endpoints_witness :
    getElementById (initState (pageDom "db" [] [])) "sourceMode"
      = some { blank with value := some "db" } ∧
    requestsOf (refreshKpis (stubNet .rejected .notJson) (initState (pageDom "db" [] []))).2.log
      = [getReq "/kpi/db/repeat-customers", getReq "/kpi/db/monthly-order-trends",
         getReq "/kpi/db/regional-revenue", getReq "/kpi/db/top-customers?limit=10"] :=
  ⟨rfl, (refreshKpis_targets_mode_endpoints (stubNet .rejected .notJson)
    (initState (pageDom "db" [] [])) { blank with value := some "db" } "db" rfl rfl).2⟩

/-- C3 (witness). On the full page with both file inputs empty the only effect
is the validation status. -/
theorem uploadFiles_without_files_witness :
    firstFile (initState (pageDom "memory" [] [])) "customersFile" = .ok none ∧
    firstFile (initState (pageDom "memory" [] [])) "ordersFile" = .ok none ∧
    (uploadFiles (stubNet .rejected .rejected) (initState (pageDom "memory" [] []))).2.log =
      [.status "statusUpload" "Please choose at least one file to upload." (statusClass false)] :=
  ⟨rfl, rfl, (uploadFiles_without_files (stubNet .rejected .rejected)
    (initState (pageDom "memory" [] [])) blank rfl rfl rfl).2.2.2.1⟩

/-- C4 (witness). With only an orders file selected and a network that rejects
everything, the one request is the POST to `/upload/orders`. -/
theorem uploadFiles_single_request_witness :
    firstFile (initState (pageDom "memory" [] [ordersCsv])) "customersFile" = .ok none ∧
    firstFile (initState (pageDom "memory" [] [ordersCsv])) "ordersFile" = .ok (some ordersCsv) ∧
    requestsOf (uploadFiles (stubNet .rejected .rejected)
        (initState (pageDom "memory" [] [ordersCsv]))).2.log =
      [postReq "/upload/orders" (some [("file", ordersCsv)])] :=
  ⟨rfl, rfl, uploadFiles_single_request (stubNet .rejected .rejected)
    (initState (pageDom "memory" [] [ordersCsv])) none (some ordersCsv) ordersCsv rfl rfl
    (Or.inr ⟨rfl, rfl⟩)⟩

/-- C5 (witness). On the rendered page, with every KPI body unparsable, the
failure text is shown and the four live handles stay live. -/
theorem refreshKpis_failure_keeps_charts_witness :
    baseKpi renderedPage = .ok "/kpi/memory" ∧
    stubNet .rejected .notJson (getReq "/kpi/memory/regional-revenue") = .notJson ∧
    textOf (refreshKpis (stubNet .rejected .notJson) renderedPage).2 "statusKpi"
      = some "Failed to load KPIs." ∧
    (refreshKpis (stubNet .rejected .notJson) renderedPage).2.live = [0, 1, 2, 3] := by
  have h := refreshKpis_failure_keeps_charts (stubNet .rejected .notJson) renderedPage
    "/kpi/memory" blank rfl rfl
    ⟨getReq "/kpi/memory/regional-revenue", by simp [kpiRequests], Or.inr rfl⟩
  exact ⟨rfl, rfl, h.2.1, h.2.2.2.2.2.1⟩

/-- C9 (witness). When POST /db/load has a body that is not JSON, `runLoad`
shows the failure text and the POST is the only request. -/
theorem trigger_post_failure_skips_refresh_witness :
    stubNet .notJson (.json (.arr [])) (postReq Trigger.load.url none) = .notJson ∧
    textOf (runLoad (stubNet .notJson (.json (.arr []))) (initState (pageDom "db" [] []))).2
      "statusLoad" = some "DB load failed." ∧
    requestsOf (runLoad (stubNet .notJson (.json (.arr []))) (initState (pageDom "db" [] []))).2.log
      = [postReq "/db/load" none] := by
  have h := trigger_post_failure_skips_refresh .load (stubNet .notJson (.json (.arr [])))
    (initState (pageDom "db" [] [])) blank (Or.inr rfl) rfl
  exact ⟨rfl, h.2.1, h.2.2.2.2.1⟩

/-- C6 (witness). The body with message `done` leaves `done` in the clean
status region, even when every KPI request is rejected. -/
theorem runClean_success_text_witness :
    stubNet (.json (.obj [("message", .str "done")])) .rejected (postReq "/clean" none)
      = .json (.obj [("message", .str "done")]) ∧
    Json.obj [("message", .str "done")] ≠ .null ∧
    textOf (runClean (stubNet (.json (.obj [("message", .str "done")])) .rejected)
        (initState (pageDom "memory" [] []))).2 "statusClean" = some "done" ∧
    classOf (runClean (stubNet (.json (.obj [("message", .str "done")])) .rejected)
        (initState (pageDom "memory" [] []))).2 "statusClean" = some (statusClass true) := by
  have hne : Json.obj [("message", .str "done")] ≠ .null := by simp
  obtain ⟨m, hm, hmain, _, _⟩ := runClean_success_text
    (stubNet (.json (.obj [("message", .str "done")])) .rejected)
    (initState (pageDom "memory" [] [])) (.obj [("message", .str "done")]) blank
    { blank with value := some "memory" } rfl hne rfl rfl
  cases hm
  obtain ⟨_, ht, hc, _⟩ := hmain "done" rfl
  exact ⟨rfl, hne, ht, hc⟩

/-- C10 (witness). With POST /clean answering the empty object and every KPI
request rejected, the KPI status region shows the failure text and the clean
status region keeps the fallback success text. -/
theorem refresh_failure_isolated_witness :
    stubNet (.json (.obj [])) .rejected (postReq Trigger.clean.url none) = .json (.obj []) ∧
    RefreshFails (stubNet (.json (.obj [])) .rejected) "/kpi/memory" ∧
    textOf (runClean (stubNet (.json (.obj [])) .rejected)
        (initState (pageDom "memory" [] []))).2 "statusKpi" = some "Failed to load KPIs." ∧
    textOf (runClean (stubNet (.json (.obj [])) .rejected)
        (initState (pageDom "memory" [] []))).2 "statusClean" = some "Cleaning completed." := by
  have hne : Json.obj [] ≠ .null := by simp
  have hf : RefreshFails (stubNet (.json (.obj [])) .rejected) "/kpi/memory" :=
    Or.inl ⟨getReq "/kpi/memory/repeat-customers", by simp [kpiRequests], Or.inl rfl⟩
  obtain ⟨m, hm, hmain⟩ := refresh_failure_isolated .clean
    (stubNet (.json (.obj [])) .rejected) (initState (pageDom "memory" [] [])) (.obj []) blank
    blank { blank with value := some "memory" } rfl hne rfl rfl rfl hf
  cases hm
  obtain ⟨_, _, hk, _, ht, _⟩ := hmain "Cleaning completed." rfl
  exact ⟨rfl, hf, hk, ht⟩

end App
